import Mathlib

/-
Verification of the typhon signal bridge, positioner state machine,
function-execution panel, and device display against their specification.

The signal plugin (typhon/plugins/core.py), positioner widget
(typhon/positioner.py) and function panel (typhon/func.py) are modelled
from the specification; TyphonDeviceDisplay is embedded directly from
typhon/display.py.
-/

namespace Typhon

/-! ## Signal bridge: registry, connection, plugin (typhon/plugins/core.py) -/

/-- Modelled from the spec: an ophyd-style Signal held in the registry
(typhon/plugins/core.py is not under src/).  A signal has a stored value,
a read-only metadata flag, and may be unresponsive: an unresponsive
signal raises a timeout-class failure on the initial subscribe or read. -/
structure SignalState where
  value : Int
  read_only : Bool
  responsive : Bool
deriving DecidableEq, Repr

/-- A widget-facing PyDM channel: the address it was given, the value the
widget currently displays, the connection flag and the write-access flag. -/
structure Channel where
  address : String
  value : Option Int
  connected : Bool
  write_access : Bool
deriving DecidableEq, Repr

/-- The world of one channel: the process-wide signal registry (name to
signal), the channel, and the name of the signal the connection is
subscribed to (`none` when disconnected). -/
structure World where
  registry : List (String × SignalState)
  channel : Channel
  subscribed : Option String
deriving DecidableEq, Repr

/-- Registry lookup by signal name. -/
def lookupSignal : List (String × SignalState) → String → Option SignalState
  | [], _ => none
  | (n, s) :: rest, name => if n = name then some s else lookupSignal rest name

/-- The characters of the channel address scheme prefix. -/
def sigScheme : List Char := ['s', 'i', 'g', ':', '/', '/']

/-- Modelled from the spec: resolution of a channel address of the form
sig://<signal-name> into the signal name; any other address is malformed. -/
def parseSignalAddress (addr : String) : Option String :=
  if addr.data.take 6 = sigScheme then some (String.mk (addr.data.drop 6))
  else none

/-- Errors of the signal bridge: the address does not resolve to a
registered signal, or the device timed out. -/
inductive SigError
  | unknownSignal
  | timeout
deriving DecidableEq, Repr

/-- Modelled from the spec: the initial subscribe (and initial read) of a
signal, which raises a timeout-class failure when the device is
unresponsive. -/
def trySubscribe (s : SignalState) : Except SigError SignalState :=
  if s.responsive then Except.ok s else Except.error SigError.timeout

/-- Modelled from the spec: resolve a signal name from the registry and
perform the initial subscribe; fails on unknown names and on timeouts. -/
def resolveSignal (reg : List (String × SignalState)) (name : String) :
    Except SigError SignalState :=
  match lookupSignal reg name with
  | none => Except.error SigError.unknownSignal
  | some sig => trySubscribe sig

/-- Push a value event to the channel: the new value, connection-state
true, and the write-access flag derived from the signal's read-only
attribute. -/
def pushValue (c : Channel) (sig : SignalState) : Channel :=
  { c with value := some sig.value, connected := true,
           write_access := !sig.read_only }

/-- Leave the channel disconnected with no live subscription. -/
def markDisconnected (w : World) : World :=
  { w with subscribed := none,
           channel := { w.channel with connected := false } }

/-- Modelled from the spec: `SignalPlugin.add_connection`
(typhon/plugins/core.py is not under src/).  The channel address is
parsed; resolution or subscribe failures are caught and degrade the
channel to disconnected (no exception escapes); on success the
connection subscribes and pushes the initial value, connected flag and
write-access flag. -/
def add_connection (w : World) : World :=
  match parseSignalAddress w.channel.address with
  | none => markDisconnected w
  | some name =>
    match resolveSignal w.registry name with
    | Except.error _ => markDisconnected w
    | Except.ok sig =>
      { w with subscribed := some name, channel := pushValue w.channel sig }

/-- Update the stored value of the named signal in the registry. -/
def putSignal : List (String × SignalState) → String → Int →
    List (String × SignalState)
  | [], _, _ => []
  | (n, s) :: rest, name, v =>
    if n = name then (n, { s with value := v }) :: rest
    else (n, s) :: putSignal rest name v

/-- Modelled from the spec: a put on the named signal.  The registry
stores the new value and, when the connection is subscribed to that
signal, the value event is forwarded to the channel. -/
def signal_put (w : World) (name : String) (v : Int) : World :=
  let reg := putSignal w.registry name v
  let w1 : World := { w with registry := reg }
  if w.subscribed = some name then
    match lookupSignal reg name with
    | some sig => { w1 with channel := pushValue w1.channel sig }
    | none => w1
  else w1

/-- Modelled from the spec: the write path of the connection.  A write
request from the widget-facing channel calls the signal's put when a
signal is attached; with no attached signal the write is silently
dropped. -/
def channel_write (w : World) (v : Int) : World :=
  match w.subscribed with
  | some name => signal_put w name v
  | none => w

/-- Modelled from the spec: channel disconnection unsubscribes from all
event streams and clears the reference to the signal; the displayed
value is left as it is. -/
def disconnect (w : World) : World := markDisconnected w

/-! ### Registry lemmas -/

theorem lookupSignal_putSignal (reg : List (String × SignalState))
    (name : String) (v : Int) :
    lookupSignal (putSignal reg name v) name =
      (lookupSignal reg name).map (fun s => { s with value := v }) := by
  induction reg with
  | nil => rfl
  | cons p rest ih =>
    obtain ⟨n, s⟩ := p
    by_cases h : n = name
    · simp [putSignal, lookupSignal, h]
    · simp [putSignal, lookupSignal, h, ih]

/-! ### Concrete worlds used by witnesses and counterexamples -/

/-- A responsive registered signal holding value 1. -/
def liveSig : SignalState := { value := 1, read_only := false, responsive := true }

/-- A registered signal whose initial subscribe raises a timeout-class
failure, as the DeadSignal test double does. -/
def brokenSig : SignalState := { value := 1, read_only := false, responsive := false }

/-- A fresh channel addressed at sig://my_signal. -/
def exChannel : Channel :=
  { address := "sig://my_signal", value := none, connected := false,
    write_access := false }

/-- A world with one live registered signal and a fresh channel. -/
def exWorld : World :=
  { registry := [("my_signal", liveSig)], channel := exChannel, subscribed := none }

/-- A world whose only registered signal times out on subscribe. -/
def brokenWorld : World :=
  { registry := [("broken_signal", brokenSig)],
    channel := { address := "sig://broken_signal", value := none,
                 connected := false, write_access := false },
    subscribed := none }

/-- A world whose channel address names no registered signal. -/
def invalidWorld : World :=
  { registry := [],
    channel := { address := "sig://invalid", value := none,
                 connected := false, write_access := false },
    subscribed := none }

/-- A connected world whose widget displays 2. -/
def shownWorld : World :=
  add_connection
    { registry := [("my_signal", { value := 2, read_only := false, responsive := true })],
      channel := exChannel, subscribed := none }

/-! ### Claim C2 -/

/-- C2 counterexample: the claim quantifies over every registered signal
name, but a registered signal whose initial subscribe raises a
timeout-class failure (the DeadSignal scenario of the repository's own
test suite) leaves the channel disconnected with no value push, not
connected. -/
theorem connect_registered_counterexample :
    parseSignalAddress brokenWorld.channel.address = some "broken_signal" ∧
    lookupSignal brokenWorld.registry "broken_signal" = some brokenSig ∧
    ¬ ((add_connection brokenWorld).channel.connected = true ∧
       (add_connection brokenWorld).channel.value = some brokenSig.value) := by
  decide

/-- C2 (amended): for every registered signal name whose signal responds
(the initial subscribe does not time out), connecting a widget channel
with address sig://<name> pushes the signal's current value and the
negation of its read-only flag as write access, and the channel reports
connected. -/
theorem connect_registered_pushes (w : World) (name : String)
    (sig : SignalState)
    (haddr : parseSignalAddress w.channel.address = some name)
    (hlook : lookupSignal w.registry name = some sig)
    (hresp : sig.responsive = true) :
    (add_connection w).channel.connected = true ∧
    (add_connection w).channel.value = some sig.value ∧
    (add_connection w).channel.write_access = !sig.read_only := by
  simp [add_connection, haddr, resolveSignal, hlook, trySubscribe, hresp,
        pushValue]

/-- Witness for C2 at a concrete registered signal of value 1. -/
theorem connect_registered_pushes_witness :
    (add_connection exWorld).channel.connected = true ∧
    (add_connection exWorld).channel.value = some 1 ∧
    (add_connection exWorld).channel.write_access = true :=
  connect_registered_pushes exWorld "my_signal" liveSig (by decide)
    (by decide) (by decide)

/-! ### Claim C3 -/

/-- C3: for every signal name not present in the registry, resolution
fails with an unknown-signal error that `add_connection` catches: no
exception reaches the caller, the channel is left disconnected with no
subscription, and writes through the channel are silently dropped. -/
theorem unknown_signal_disconnected (w : World) (name : String) (v : Int)
    (haddr : parseSignalAddress w.channel.address = some name)
    (hlook : lookupSignal w.registry name = none) :
    resolveSignal w.registry name = Except.error SigError.unknownSignal ∧
    (add_connection w).channel.connected = false ∧
    (add_connection w).subscribed = none ∧
    channel_write (add_connection w) v = add_connection w := by
  have hres : resolveSignal w.registry name =
      Except.error SigError.unknownSignal := by
    simp [resolveSignal, hlook]
  have hadd : add_connection w = markDisconnected w := by
    simp [add_connection, haddr, hres]
  refine ⟨hres, ?_, ?_, ?_⟩ <;> simp [hadd, markDisconnected, channel_write]

/-- Witness for C3 at the unregistered address sig://invalid. -/
theorem unknown_signal_disconnected_witness :
    (add_connection invalidWorld).channel.connected = false ∧
    channel_write (add_connection invalidWorld) 5 = add_connection invalidWorld := by
  have h := unknown_signal_disconnected invalidWorld "invalid" 5 (by decide)
    (by decide)
  exact ⟨h.2.1, h.2.2.2⟩

/-! ### Claim C4 -/

/-- C4: disconnecting a connected channel releases the subscription;
afterwards a put on the underlying signal leaves the channel (and so the
widget's displayed value) unchanged, and widget write requests no longer
reach any signal. -/
theorem disconnect_isolates (w : World) (hconn : w.channel.connected = true) :
    (disconnect w).subscribed = none ∧
    (∀ name v, (signal_put (disconnect w) name v).channel = (disconnect w).channel) ∧
    (∀ v, channel_write (disconnect w) v = disconnect w) := by
  refine ⟨rfl, ?_, ?_⟩
  · intro name v
    simp [disconnect, markDisconnected, signal_put]
  · intro v
    simp [channel_write, disconnect, markDisconnected]

/-- Witness for C4: the widget shows 2, the signal is set to 3 after the
disconnect, and the widget still shows 2. -/
theorem disconnect_isolates_witness :
    (disconnect shownWorld).channel.value = some 2 ∧
    (signal_put (disconnect shownWorld) "my_signal" 3).channel =
      (disconnect shownWorld).channel := by
  refine ⟨by decide, ?_⟩
  exact (disconnect_isolates shownWorld (by decide)).2.1 "my_signal" 3

/-! ### Claim C5 -/

/-- C5: writing a value V through a live channel stores V in the
underlying signal, and the resulting value event pushes V back so the
widget's displayed value becomes V. -/
theorem channel_write_updates (w : World) (name : String) (sig : SignalState)
    (v : Int)
    (hsub : w.subscribed = some name)
    (hlook : lookupSignal w.registry name = some sig) :
    lookupSignal (channel_write w v).registry name = some { sig with value := v } ∧
    (channel_write w v).channel.value = some v := by
  have hput : lookupSignal (putSignal w.registry name v) name =
      some { sig with value := v } := by
    rw [lookupSignal_putSignal, hlook]; rfl
  simp [channel_write, hsub, signal_put, hput, pushValue]

/-- Witness for C5: writing 5 through a live channel stores 5 in the
signal and displays 5 in the widget. -/
theorem channel_write_updates_witness :
    lookupSignal (channel_write shownWorld 5).registry "my_signal" =
      some { value := 5, read_only := false, responsive := true } ∧
    (channel_write shownWorld 5).channel.value = some 5 :=
  channel_write_updates shownWorld "my_signal"
    { value := 2, read_only := false, responsive := true } 5 (by decide)
    (by decide)

/-! ## Positioner control state machine (typhon/positioner.py) -/

/-- The states of the positioner motion lifecycle. -/
inductive MoveState
  | idle
  | moving
  | doneSuccess
  | doneFailure
deriving DecidableEq, Repr

/-- Modelled from the spec: the TyphonPositionerWidget state
(typhon/positioner.py is not under src/).  It tracks the motion state,
the two UI affordances, whether the in-flight move session has been
cancelled by an explicit stop, the target setpoint, the simulated device
position, and whether the device's stop command was issued. -/
structure Positioner where
  state : MoveState
  successful_move : Bool
  failed_move : Bool
  cancelled : Bool
  setpoint : Option Rat
  device_pos : Rat
  device_stop_called : Bool
deriving DecidableEq, Repr

/-- The positioner as first constructed: idle, no affordance set, device
at position 0. -/
def initPositioner : Positioner :=
  { state := MoveState.idle, successful_move := false, failed_move := false,
    cancelled := false, setpoint := none, device_pos := 0,
    device_stop_called := false }

/-- Modelled from the spec: completion of a move.  Success enters
Done-Success, sets the successful-move affordance and clears the
failed-move affordance; failure enters Done-Failure, sets the
failed-move affordance and clears the successful-move one. -/
def done_moving (p : Positioner) (success : Bool) : Positioner :=
  if success then
    { p with state := MoveState.doneSuccess, successful_move := true,
             failed_move := false }
  else
    { p with state := MoveState.doneFailure, failed_move := true,
             successful_move := false }

/-- Modelled from the spec: a move request (absolute set or tweak).  It
enters Moving, starts a fresh cancellable session, stores the target
setpoint and issues the asynchronous move command, which the simulated
zero-delay device applies immediately; the completion callback is
delivered separately by `deliver`. -/
def move_request (p : Positioner) (target : Rat) : Positioner :=
  { p with state := MoveState.moving, cancelled := false,
           setpoint := some target, device_pos := target }

/-- Modelled from the spec: a positive tweak moves to the baseline (the
current position) plus the tweak magnitude, through the same
move-request path as an absolute set. -/
def positive_tweak (p : Positioner) (magnitude : Rat) : Positioner :=
  move_request p (p.device_pos + magnitude)

/-- Modelled from the spec: a negative tweak moves to the baseline minus
the tweak magnitude, through the same move-request path. -/
def negative_tweak (p : Positioner) (magnitude : Rat) : Positioner :=
  move_request p (p.device_pos - magnitude)

/-- Modelled from the spec: `stop()` is valid from any state; it issues
a stop command to the device and, if a move is in flight, cancels the
session and forces a transition to Done-Failure. -/
def stop (p : Positioner) : Positioner :=
  let p1 : Positioner := { p with device_stop_called := true }
  if p.state = MoveState.moving then
    { done_moving p1 false with cancelled := true }
  else p1

/-- Modelled from the spec: delivery of the worker-thread completion
callback for the current move session.  A spurious callback arriving
after an explicit stop of that session is discarded; otherwise it runs
`done_moving`. -/
def deliver (p : Positioner) (success : Bool) : Positioner :=
  if p.cancelled then p else done_moving p success

/-! ### Claim C1 -/

/-- C1: calling `stop()` while the state machine is in Moving forces
Done-Failure, and a success completion callback for that same move
delivered after the stop is discarded: the state remains Done-Failure
with the failed-move affordance set, so the explicit stop dominates the
late success. -/
theorem stop_dominates_late_success (p : Positioner)
    (h : p.state = MoveState.moving) :
    (stop p).state = MoveState.doneFailure ∧
    (deliver (stop p) true).state = MoveState.doneFailure ∧
    (deliver (stop p) true).successful_move = false ∧
    (deliver (stop p) true).failed_move = true := by
  simp [stop, h, done_moving, deliver]

/-- Witness for C1: a concrete in-flight move to 4 that is stopped and
then receives a late success callback. -/
theorem stop_dominates_late_success_witness :
    (move_request initPositioner 4).state = MoveState.moving ∧
    (deliver (stop (move_request initPositioner 4)) true).state =
      MoveState.doneFailure := by
  refine ⟨by decide, ?_⟩
  exact (stop_dominates_late_success (move_request initPositioner 4)
    (by decide)).2.1

/-! ### Claim C6 -/

/-- C6: a positive tweak is exactly a move request to baseline plus
magnitude and a negative tweak to baseline minus magnitude, through the
same move-request path as an absolute set; with baseline 0 and magnitude
1 the resulting position is 1, respectively -1. -/
theorem tweak_moves_relative (p : Positioner) (m : Rat) :
    positive_tweak p m = move_request p (p.device_pos + m) ∧
    negative_tweak p m = move_request p (p.device_pos - m) ∧
    (positive_tweak p m).device_pos = p.device_pos + m ∧
    (negative_tweak p m).device_pos = p.device_pos - m ∧
    (positive_tweak initPositioner 1).device_pos = 1 ∧
    (negative_tweak initPositioner 1).device_pos = -1 := by
  refine ⟨rfl, rfl, rfl, rfl, ?_, ?_⟩
  · simp [positive_tweak, move_request, initPositioner]
  · simp [negative_tweak, move_request, initPositioner]

/-! ### Claim C8 -/

/-- C8: `done_moving true` puts the machine in Done-Success with the
successful-move affordance set and the failed-move affordance cleared,
and it is idempotent: a second consecutive call leaves the state
entirely unchanged. -/
theorem done_moving_success_idempotent (p : Positioner) :
    (done_moving p true).state = MoveState.doneSuccess ∧
    (done_moving p true).successful_move = true ∧
    (done_moving p true).failed_move = false ∧
    done_moving (done_moving p true) true = done_moving p true := by
  simp [done_moving]

/-! ## Function execution panel (typhon/func.py) -/

/-- The classified type of a function-panel parameter: bool parameters
get a checkbox-like control, numeric parameters a field coerced to int
or float, everything else a free-text field read as a string. -/
inductive ParamType
  | intType
  | floatType
  | boolType
  | strType
deriving DecidableEq, Repr

/-- A coerced argument value. -/
inductive ParamValue
  | intVal (n : Int)
  | floatVal (q : Rat)
  | boolVal (b : Bool)
  | strVal (s : String)
deriving DecidableEq, Repr

/-- A visible per-parameter input control: the parameter name, its
classified type, the current text of the field, and the checked state of
the checkbox-like control. -/
structure ParamControl where
  name : String
  ptype : ParamType
  text : String
  checked : Bool
deriving DecidableEq, Repr

/-- Read a nonempty run of decimal digits as a natural number; any other
character makes the coercion fail. -/
def digitsToNat (cs : List Char) : Option Nat :=
  if cs = [] then none
  else cs.foldl (fun acc c =>
    acc.bind (fun n => if c.isDigit then some (n * 10 + (c.toNat - 48)) else none))
    (some 0)

/-- Read an optionally negated digit run as an integer, as Python's int
coercion of a text field does. -/
def charsToInt : List Char → Option Int
  | '-' :: rest => (digitsToNat rest).map (fun n => -(n : Int))
  | cs => (digitsToNat cs).map (fun n => (n : Int))

/-- Modelled from the spec: float coercion of a text field
(typhon/func.py is not under src/), reading an optional decimal point
with a fractional digit run; any other shape fails. -/
def parseDecimal (s : String) : Option Rat :=
  match s.data.splitOn '.' with
  | [a] => (charsToInt a).map (fun n => (n : Rat))
  | [a, b] =>
    match charsToInt a, digitsToNat b with
    | some n, some f =>
      let frac : Rat := (f : Rat) / ((10 : Rat) ^ b.length)
      some (if n < 0 then (n : Rat) - frac else (n : Rat) + frac)
    | _, _ => none
  | _ => none

/-- Modelled from the spec: coercion of one visible control's current
text or checked value to its classified type; returns `none` when the
coercion fails. -/
def coerceControl (c : ParamControl) : Option ParamValue :=
  match c.ptype with
  | ParamType.intType => (charsToInt c.text.data).map ParamValue.intVal
  | ParamType.floatType => (parseDecimal c.text).map ParamValue.floatVal
  | ParamType.boolType => some (ParamValue.boolVal c.checked)
  | ParamType.strType => some (ParamValue.strVal c.text)

/-- Collect the coerced keyword arguments of all visible controls:
`none` as soon as any single coercion fails. -/
def gatherKwargs : List ParamControl → Option (List (String × ParamValue))
  | [] => some []
  | c :: rest =>
    match coerceControl c, gatherKwargs rest with
    | some v, some kws => some ((c.name, v) :: kws)
    | _, _ => none

/-- Modelled from the spec: a FunctionDisplay holds the visible
per-parameter controls and the default values of the hidden parameters,
which are supplied to the call without a control. -/
structure FunctionDisplay where
  param_controls : List ParamControl
  hidden_defaults : List (String × ParamValue)
deriving DecidableEq, Repr

/-- Modelled from the spec: `execute()` reads every visible control and
coerces it; if any coercion fails it aborts and the wrapped callable is
never invoked (result `none`); if all succeed the callable is invoked
with the assembled keyword arguments (result `some kwargs`). -/
def execute (fd : FunctionDisplay) : Option (List (String × ParamValue)) :=
  (gatherKwargs fd.param_controls).map (fun kws => fd.hidden_defaults ++ kws)

/-! ### Gathering lemmas -/

theorem gatherKwargs_eq_none {cs : List ParamControl} (c : ParamControl)
    (hc : c ∈ cs) (hn : coerceControl c = none) : gatherKwargs cs = none := by
  induction cs with
  | nil => cases hc
  | cons d rest ih =>
    rcases List.mem_cons.mp hc with h | h
    · subst h
      simp [gatherKwargs, hn]
    · cases hd : coerceControl d <;> simp [gatherKwargs, hd, ih h]

theorem gatherKwargs_eq_some {cs : List ParamControl}
    (h : ∀ c ∈ cs, (coerceControl c).isSome = true) :
    gatherKwargs cs =
      some (cs.filterMap (fun c => (coerceControl c).map (fun v => (c.name, v)))) := by
  induction cs with
  | nil => rfl
  | cons d rest ih =>
    obtain ⟨v, hv⟩ := Option.isSome_iff_exists.mp (h d (List.mem_cons_self d rest))
    have hrest := ih (fun c hc => h c (List.mem_cons_of_mem d hc))
    simp [gatherKwargs, hv, hrest, List.filterMap_cons]

/-! ### Claim C7 -/

/-- C7: when some visible control's text cannot be coerced to its
classified type, `execute` aborts before the wrapped callable runs, so
the callable is never invoked; when every coercion succeeds the
callable is invoked with the assembled keyword arguments (hidden
defaults plus the coerced visible controls). -/
theorem execute_guards_invocation (fd : FunctionDisplay) :
    ((∃ c ∈ fd.param_controls, coerceControl c = none) → execute fd = none) ∧
    ((∀ c ∈ fd.param_controls, (coerceControl c).isSome = true) →
      execute fd = some (fd.hidden_defaults ++
        fd.param_controls.filterMap
          (fun c => (coerceControl c).map (fun v => (c.name, v))))) := by
  constructor
  · rintro ⟨c, hc, hn⟩
    simp [execute, gatherKwargs_eq_none c hc hn]
  · intro h
    simp [execute, gatherKwargs_eq_some h]

/-- The test fixture's panel with the int field set to the non-numeric
text Invalid. -/
def invalidDisplay : FunctionDisplay :=
  { param_controls :=
      [ { name := "first", ptype := ParamType.intType, text := "Invalid",
          checked := false },
        { name := "second", ptype := ParamType.floatType, text := "3.14159",
          checked := false },
        { name := "third", ptype := ParamType.boolType, text := "",
          checked := true } ],
    hidden_defaults := [("hide", ParamValue.boolVal true)] }

/-- The test fixture's panel with all fields well-typed. -/
def validDisplay : FunctionDisplay :=
  { param_controls :=
      [ { name := "first", ptype := ParamType.intType, text := "1",
          checked := false },
        { name := "second", ptype := ParamType.floatType, text := "3.14159",
          checked := false },
        { name := "third", ptype := ParamType.boolType, text := "",
          checked := true } ],
    hidden_defaults := [("hide", ParamValue.boolVal true)] }

/-- Witness for C7: with the text Invalid in the int field the callable
is not invoked; with well-typed fields it is invoked with the assembled
keyword arguments. -/
theorem execute_guards_invocation_witness :
    execute invalidDisplay = none ∧
    execute validDisplay = some
      [("hide", ParamValue.boolVal true), ("first", ParamValue.intVal 1),
       ("second", ParamValue.floatVal (314159 / 100000)),
       ("third", ParamValue.boolVal true)] := by
  constructor
  · exact (execute_guards_invocation invalidDisplay).1
      ⟨{ name := "first", ptype := ParamType.intType, text := "Invalid",
         checked := false }, by decide, by decide⟩
  · have h := (execute_guards_invocation validDisplay).2 (by decide)
    have h2 : execute validDisplay = some
        [("hide", ParamValue.boolVal true), ("first", ParamValue.intVal 1),
         ("second", ParamValue.floatVal ((3 : Rat) + 14159 / 10 ^ 5)),
         ("third", ParamValue.boolVal true)] := by
      rw [h]; rfl
    rw [h2]
    norm_num

/-! ## TyphonDeviceDisplay (src/typhon/display.py) -/

/-- A macro dictionary, as passed to template loading. -/
abbrev Macros := List (String × String)

/-- First-match lookup in a string-keyed dictionary. -/
def lookupStr : List (String × String) → String → Option String
  | [], _ => none
  | (k, v) :: rest, key => if k = key then some v else lookupStr rest key

/-- The widget stored in `_main_widget`: either the blank QWidget used
as fallback, or a pydm Display built from a template file with macros. -/
inductive MainWidget
  | blank
  | displayWidget (template : String) (ms : Macros)
deriving DecidableEq, Repr

/-- The exception classes caught by `load_template` around the Display
constructor. -/
inductive LoadErr
  | fileNotFound
  | isADirectory
deriving DecidableEq, Repr

/-- An ophyd device as seen by `add_device`: its name and the optional
happi metadata returned by `device.md.post()`. -/
structure DeviceModel where
  name : String
  md : Option Macros
deriving DecidableEq, Repr

/-- The state of a TyphonDeviceDisplay: whether `layout()` is non-None,
the widgets currently added to the layout, `_main_widget`, the
`templates` mapping, `_last_macros`, the devices cache, the current
display type and `_forced_template`.  Child-widget device propagation
and stylesheet reloading are external GUI effects outside the model. -/
structure DisplayState where
  hasLayout : Bool
  layoutWidgets : List MainWidget
  mainWidget : Option MainWidget
  templates : List (String × String)
  lastMacros : Macros
  devices : List DeviceModel
  displayType : String
  forcedTemplate : String
deriving DecidableEq, Repr

/-- `current_template`: the forced template when one is set, otherwise
the template registered for the current display type (the constructor
populates every display type, so the lookup default is never used). -/
def current_template (s : DisplayState) : String :=
  if s.forcedTemplate ≠ "" then s.forcedTemplate
  else (lookupStr s.templates s.displayType).getD ""

/-- The macro loop of `load_template`: every display type that the macro
dictionary maps to a truthy (non-empty) value gets its template path
replaced. -/
def updateTemplates (ts : List (String × String)) (m : Macros) :
    List (String × String) :=
  ts.map (fun kv =>
    match lookupStr m kv.1 with
    | some v => if v = "" then kv else (kv.1, v)
    | none => kv)

/-- The stage of `load_template` before the try block: clear the layout
when a main widget exists, default the macros (`macros or dict()`),
fold them into the templates mapping and store them as `_last_macros`. -/
def assembleMacros (s : DisplayState) (ms : Option Macros) : DisplayState :=
  let cleared : DisplayState :=
    match s.mainWidget with
    | some _ => { s with layoutWidgets := [] }
    | none => s
  let m : Macros := ms.getD []
  { cleared with templates := updateTemplates cleared.templates m,
                 lastMacros := m }

/-- `load_template`: returns unchanged when the layout is None;
otherwise assembles macros, constructs the Display from the current
template through `loader` (the external pydm Display constructor, which
may raise FileNotFoundError or IsADirectoryError), catches those two
errors by substituting a blank QWidget, and in the finally block adds
the main widget to the layout. -/
def load_template (loader : String → Except LoadErr MainWidget)
    (s : DisplayState) (ms : Option Macros) : DisplayState :=
  if s.hasLayout then
    let s1 := assembleMacros s ms
    let w : MainWidget :=
      match loader (current_template s1) with
      | Except.ok w => w
      | Except.error _ => MainWidget.blank
    { s1 with mainWidget := some w, layoutWidgets := s1.layoutWidgets ++ [w] }
  else s

/-- The `if self.devices: self.devices.clear()` step of `add_device`. -/
def clear_devices (s : DisplayState) : DisplayState :=
  if s.devices = [] then s else { s with devices := [] }

/-- Modelled from the spec: `TyphonBase.add_device` (typhon/utils.py is
not under src/) caches the device on the widget; the cache is the
devices list, which the call appends to. -/
def base_add_device (s : DisplayState) (device : DeviceModel) : DisplayState :=
  { s with devices := s.devices ++ [device] }

/-- The macro fallback of `add_device`: when no macros are passed (None
or empty), use the device's happi metadata when present, else an empty
dictionary. -/
def raw_macros (device : DeviceModel) (ms : Option Macros) : Macros :=
  match ms with
  | none => device.md.getD []
  | some l => if l = [] then device.md.getD [] else l

/-- The macros `add_device` reloads the template with: the fallback
macros, with the device name inserted under the key name when that key
is absent. -/
def device_macros (device : DeviceModel) (ms : Option Macros) : Macros :=
  let m := raw_macros device ms
  if lookupStr m "name" = none then m ++ [("name", device.name)] else m

/-- `add_device`: clear any previously added devices, cache the new
device, and reload the template with the assembled macros. -/
def add_device (loader : String → Except LoadErr MainWidget)
    (s : DisplayState) (device : DeviceModel) (ms : Option Macros) :
    DisplayState :=
  load_template loader (base_add_device (clear_devices s) device)
    (some (device_macros device ms))

/-! ### Display lemmas -/

theorem assembleMacros_devices (s : DisplayState) (ms : Option Macros) :
    (assembleMacros s ms).devices = s.devices := by
  unfold assembleMacros
  cases s.mainWidget <;> simp

theorem load_template_devices (loader : String → Except LoadErr MainWidget)
    (s : DisplayState) (ms : Option Macros) :
    (load_template loader s ms).devices = s.devices := by
  unfold load_template
  cases hh : s.hasLayout
  · simp
  · simp [assembleMacros_devices]

theorem lookupStr_append_of_none {m : List (String × String)} {key : String}
    (h : lookupStr m key = none) (rest : List (String × String)) :
    lookupStr (m ++ rest) key = lookupStr rest key := by
  induction m with
  | nil => rfl
  | cons p t ih =>
    obtain ⟨k, v⟩ := p
    by_cases hk : k = key
    · simp [lookupStr, hk] at h
    · simp only [List.cons_append, lookupStr, hk, if_false] at h ⊢
      exact ih h

/-! ### Claim C9 -/

/-- C9: with a non-None layout, when the Display constructor fails with
FileNotFoundError or IsADirectoryError the error is caught and the main
widget is replaced by a blank QWidget, and in every case (success or
failure) the main widget ends up added to the display's layout. -/
theorem load_template_catches (loader : String → Except LoadErr MainWidget)
    (s : DisplayState) (ms : Option Macros) (h : s.hasLayout = true) :
    ((∃ e, loader (current_template (assembleMacros s ms)) = Except.error e) →
      (load_template loader s ms).mainWidget = some MainWidget.blank) ∧
    (∃ w, (load_template loader s ms).mainWidget = some w ∧
      w ∈ (load_template loader s ms).layoutWidgets) := by
  constructor
  · rintro ⟨e, he⟩
    simp [load_template, h, he]
  · cases hres : loader (current_template (assembleMacros s ms)) with
    | ok w => exact ⟨w, by simp [load_template, h, hres]⟩
    | error e => exact ⟨MainWidget.blank, by simp [load_template, h, hres]⟩

/-- A loader that always raises FileNotFoundError. -/
def fnfLoader : String → Except LoadErr MainWidget :=
  fun _ => Except.error LoadErr.fileNotFound

/-- A freshly constructed display state with the three default
templates. -/
def exDisplayState : DisplayState :=
  { hasLayout := true, layoutWidgets := [], mainWidget := none,
    templates := [("embedded_screen", "embedded_screen.ui"),
                  ("detailed_screen", "detailed_screen.ui"),
                  ("engineering_screen", "engineering_screen.ui")],
    lastMacros := [], devices := [], displayType := "detailed_screen",
    forcedTemplate := "" }

/-- Witness for C9: a missing template file yields the blank fallback
main widget. -/
theorem load_template_catches_witness :
    (load_template fnfLoader exDisplayState none).mainWidget =
      some MainWidget.blank :=
  (load_template_catches fnfLoader exDisplayState none rfl).1
    ⟨LoadErr.fileNotFound, rfl⟩

/-! ### Claim C10 -/

/-- C10: after `add_device` the devices list holds exactly the new
device (previous devices are cleared first); the template reload runs
with macros that always contain the key name, which defaults to the
device's name when not supplied. -/
theorem add_device_single (loader : String → Except LoadErr MainWidget)
    (s : DisplayState) (device : DeviceModel) (ms : Option Macros) :
    (add_device loader s device ms).devices = [device] ∧
    add_device loader s device ms =
      load_template loader (base_add_device (clear_devices s) device)
        (some (device_macros device ms)) ∧
    (lookupStr (device_macros device ms) "name").isSome = true ∧
    (lookupStr (raw_macros device ms) "name" = none →
      lookupStr (device_macros device ms) "name" = some device.name) := by
  have hname : lookupStr (raw_macros device ms) "name" = none →
      lookupStr (device_macros device ms) "name" = some device.name := by
    intro hl
    unfold device_macros
    rw [if_pos hl, lookupStr_append_of_none hl]
    simp [lookupStr]
  refine ⟨?_, rfl, ?_, hname⟩
  · rw [add_device, load_template_devices]
    unfold base_add_device clear_devices
    by_cases h : s.devices = [] <;> simp [h]
  · cases hl : lookupStr (raw_macros device ms) "name" with
    | none => simp [hname hl]
    | some v =>
      unfold device_macros
      simp [hl]

/-- A device named test with no happi metadata. -/
def exDevice : DeviceModel := { name := "test", md := none }

/-- Witness for C10: adding a device to a fresh display leaves exactly
that device, and with no macros supplied the reload macros carry the
device name under the key name. -/
theorem add_device_single_witness :
    (add_device fnfLoader exDisplayState exDevice none).devices = [exDevice] ∧
    lookupStr (device_macros exDevice none) "name" = some "test" :=
  ⟨(add_device_single fnfLoader exDisplayState exDevice none).1,
   (add_device_single fnfLoader exDisplayState exDevice none).2.2.2 (by decide)⟩

end Typhon
